import Mathlib

/-!
Verification of the authenticated session client of the IES heat-pump
homebridge plugin (`src/api/client.ts`), as a shallow embedding in Lean.

Conventions of the embedding:
* JavaScript strings are Lean `String`s; `undefined` is modelled by `Option`.
* JavaScript `Map` objects are association lists with insertion-order
  preserving `set` (`jsMapSet`); lookups go through `List.lookup`.
* Millisecond instants are `Int`; a JavaScript `Date` is `JsDate`, with a
  distinguished `invalid` value for Invalid Date (whose `getTime()` is NaN;
  every numeric comparison against NaN is false in JavaScript).
* Library calls whose internals are not part of this repository
  (`Buffer.from` + `JSON.parse` for JWT payloads, `decodeURIComponent`)
  are abstracted as function parameters; everything else is translated
  directly from the source.
* Thrown exceptions become `Except` errors; `IESApiError` mirrors the
  error class of `src/api/types.ts` (message, statusCode?, isAuthError).
-/

/-- Error class of the plugin (`IESApiError` in `src/api/types.ts`):
a message, an optional HTTP status code, and the `authFailure` flag
(stored as `isAuthError`). -/
structure IESApiError where
  message : String
  statusCode : Option Nat
  isAuthError : Bool
deriving Repr, DecidableEq

/-- Truthiness of an optional JavaScript string: `undefined` and the empty
string are falsy. -/
def truthyOpt : Option String → Bool
  | none => false
  | some s => s ≠ ""

/-- JavaScript `Date`: either a valid instant (milliseconds since epoch) or
Invalid Date. -/
inductive JsDate where
  | valid (ms : Int)
  | invalid
deriving Repr, DecidableEq

/-- JavaScript `Map.set`: updating an existing key keeps its position and
replaces the value; a new key is appended. -/
def jsMapSet {α : Type} : List (String × α) → String → α → List (String × α)
  | [], k, v => [(k, v)]
  | (k', v') :: rest, k, v =>
    if k' = k then (k', v) :: rest else (k', v') :: jsMapSet rest k v

/-- Substring test, modelling JavaScript `String.prototype.includes`. -/
def jsIncludesAux (subl : List Char) : List Char → Bool
  | [] => subl.isEmpty
  | c :: cs => subl.isPrefixOf (c :: cs) || jsIncludesAux subl cs

/-- JavaScript `s.includes(sub)`. -/
def jsIncludes (s sub : String) : Bool :=
  jsIncludesAux sub.toList s.toList

/-- Classification of a JavaScript `parseFloat` result: `nan` when no
numeric prefix exists, `infinite` for the `Infinity` literal, `finite`
for an ordinary decimal literal.  (Exponent overflow of a decimal
literal to an infinite double is not modelled; no claim depends on it.) -/
inductive FloatClass where
  | nan
  | infinite
  | finite
deriving Repr, DecidableEq

/-- Leading-whitespace stripping performed by `parseFloat` (the common
StrWhiteSpace characters). -/
def stripLeadingWs : List Char → List Char
  | [] => []
  | c :: cs => if c = ' ' ∨ c = '\t' ∨ c = '\n' ∨ c = '\r' then stripLeadingWs cs else c :: cs

/-- Optional single sign character accepted by `parseFloat`. -/
def stripSign : List Char → List Char
  | [] => []
  | c :: cs => if c = '+' ∨ c = '-' then cs else c :: cs

/-- Classification of `parseFloat(s)`: after optional whitespace and one
optional sign, an `Infinity` literal gives `infinite`; a digit, or a dot
followed by a digit, starts a valid decimal literal (`finite`); anything
else is `nan`. -/
def jsParseFloatClass (s : String) : FloatClass :=
  let cs := stripSign (stripLeadingWs s.toList)
  if ("Infinity".toList).isPrefixOf cs then .infinite
  else
    match cs with
    | [] => .nan
    | c :: rest =>
      if c.isDigit then .finite
      else if c = '.' then
        match rest with
        | [] => .nan
        | d :: _ => if d.isDigit then .finite else .nan
      else .nan

/-- One entry of `groups[].viewParameters[]` in an API payload
(`{ id, actualValue }`); both may be absent. -/
structure ViewParameter where
  id : Option String
  actualValue : Option String
deriving Repr, DecidableEq

/-- One entry of `groups[]` in an API payload. -/
structure ApiGroup where
  viewParameters : Option (List ViewParameter)
deriving Repr, DecidableEq

/-- An API payload (`IESApiResponse`): `groups` may be missing or not an
array, modelled as `none`. -/
structure IESApiResponse where
  groups : Option (List ApiGroup)
deriving Repr, DecidableEq

/-- A parsed reading (`TemperatureReading`): the parameter id and the raw
text.  The floating-point `value` and the `timestamp` of the source are
not modelled (no claim inspects them). -/
structure TemperatureReading where
  paramId : String
  raw : String
deriving Repr, DecidableEq

/-- Insertion of a single `viewParameters` entry into the readings map
(`parseResponse` inner loop, client.ts lines 589-606): skipped when `id`
is falsy, `actualValue` is undefined, or `parseFloat(actualValue)` is NaN. -/
def insertParam (readings : List (String × TemperatureReading)) (param : ViewParameter) :
    List (String × TemperatureReading) :=
  match param.id with
  | none => readings
  | some pid =>
    if pid = "" then readings
    else
      match param.actualValue with
      | none => readings
      | some raw =>
        if jsParseFloatClass raw = .nan then readings
        else jsMapSet readings pid ⟨pid, raw⟩

/-- Processing of one group (`parseResponse` outer loop): a group without a
`viewParameters` array contributes nothing. -/
def parseGroup (readings : List (String × TemperatureReading)) (g : ApiGroup) :
    List (String × TemperatureReading) :=
  match g.viewParameters with
  | none => readings
  | some ps => ps.foldl insertParam readings

/-- The `parseResponse` method (client.ts lines 575-611): builds a fresh
map of readings from the payload's groups. -/
def parseResponse (data : IESApiResponse) : List (String × TemperatureReading) :=
  match data.groups with
  | none => []
  | some gs => gs.foldl parseGroup []

/-- Merge step of `fetchReadings` (client.ts lines 493-499): copy the
monitoring map, then `set` every settings entry over it, so settings
values override monitoring values for duplicated keys. -/
def fetchReadingsMerge (monitoring settings : List (String × TemperatureReading)) :
    List (String × TemperatureReading) :=
  settings.foldl (fun m kv => jsMapSet m kv.1 kv.2) monitoring

/-- Splitting of one `name=value` cookie text: the part before the first
`=` is the name, the rest (re-joined on `=`) is the value; mirrors
`const [name, ...valueParts] = cookie.split('=')` with
`valueParts.join('=')`. -/
def parseCookiePair (s : String) : String × String :=
  match s.splitOn "=" with
  | [] => ("", "")
  | name :: valueParts => (name, String.intercalate "=" valueParts)

/-- Guarded map update used by `mergeCookies`: an entry with an empty
(falsy) name is skipped. -/
def cookieSet (m : List (String × String)) (p : String × String) : List (String × String) :=
  if p.1 ≠ "" then jsMapSet m p.1 p.2 else m

/-- The cookie map built by `mergeCookies` (client.ts lines 360-379)
before rendering: existing jar entries first (split on `"; "`), then each
`Set-Cookie` header truncated at its first `;`. -/
def mergeCookiesMap (existingCookies : String) (newSetCookies : List String) :
    List (String × String) :=
  let m := (existingCookies.splitOn "; ").foldl (fun m c => cookieSet m (parseCookiePair c)) []
  newSetCookies.foldl
    (fun m sc => cookieSet m (parseCookiePair ((sc.splitOn ";").headD ""))) m

/-- The `mergeCookies` method (client.ts lines 360-383): renders the merged
map as a `"; "`-joined `name=value` jar. -/
def mergeCookies (existingCookies : String) (newSetCookies : List String) : String :=
  String.intercalate "; " ((mergeCookiesMap existingCookies newSetCookies).map
    (fun p => p.1 ++ "=" ++ p.2))

/-- Spec-side helper: the value of the last entry of `l` carrying key `k`
(used to state the last-value-wins cookie property). -/
def lastValueFor (k : String) (l : List (String × String)) : Option String :=
  (l.reverse.find? (fun p => p.1 == k)).map Prod.snd

/-- Decision taken by `ensureAuthenticated`: do nothing, run the full
`authenticate()` flow, or run `refreshTokens()`. -/
inductive EnsureAction where
  | noop
  | fullAuth
  | refresh
deriving Repr, DecidableEq

/-- The `ensureAuthenticated` method (client.ts lines 443-457) as a pure
decision on the stored state and the current instant (ms).  A falsy
access token or an undefined expiry date forces `authenticate()`;
otherwise `now >= expiresAt.getTime() - 60000` forces `refreshTokens()`.
For an Invalid Date, `getTime()` is NaN and the comparison is false, so
nothing is triggered. -/
def ensureAuthenticated (accessToken : Option String) (tokenExpiresAt : Option JsDate)
    (nowMs : Int) : EnsureAction :=
  if ¬ truthyOpt accessToken then .fullAuth
  else
    match tokenExpiresAt with
    | none => .fullAuth
    | some .invalid => .noop
    | some (.valid expiresAt) =>
      if nowMs ≥ expiresAt - 60000 then .refresh else .noop

/-- Decoded JWT payload as far as the client reads it: the `exp` claim,
present only when it is a number (Unix seconds). -/
structure JwtPayload where
  exp : Option Int
deriving Repr, DecidableEq

/-- Accumulating splitter for `jsSplitChar`, structural on the character
list. -/
def jsSplitCharAux (sep : Char) : List Char → List Char → List (List Char)
  | [], acc => [acc.reverse]
  | c :: cs, acc =>
    if c = sep then acc.reverse :: jsSplitCharAux sep cs []
    else jsSplitCharAux sep cs (c :: acc)

/-- JavaScript `s.split(sep)` for a single-character separator (as in
`idToken.split('.')`). -/
def jsSplitChar (sep : Char) (s : String) : List String :=
  (jsSplitCharAux sep s.toList []).map String.mk

/-- Expiry computation of `completeOidcFlow` (client.ts lines 319-327).
`decodePayload` abstracts `JSON.parse(Buffer.from(seg, 'base64').toString())`
(`none` models a thrown decode/parse error).  The token is split on `.`;
a missing middle segment makes `Buffer.from(undefined)` throw, and any
thrown error takes the catch branch `now + 1 hour`.  A payload without a
numeric `exp` gives `new Date(NaN)`, an Invalid Date. -/
def tokenExpiry (decodePayload : String → Option JwtPayload) (idToken : String)
    (nowMs : Int) : JsDate :=
  match (jsSplitChar '.' idToken).get? 1 with
  | none => .valid (nowMs + 3600 * 1000)
  | some seg =>
    match decodePayload seg with
    | none => .valid (nowMs + 3600 * 1000)
    | some payload =>
      match payload.exp with
      | some e => .valid (e * 1000)
      | none => .invalid

/-- Mutable session fields of `IESClient` (client.ts lines 22-27):
`accessToken`, `refreshToken`, `tokenExpiresAt`, `sessionCookies`. -/
structure SessionState where
  accessToken : Option String
  refreshToken : Option String
  tokenExpiresAt : Option JsDate
  sessionCookies : Option String
deriving Repr, DecidableEq

/-- Session state of a freshly constructed client: every field undefined. -/
def initialState : SessionState :=
  ⟨none, none, none, none⟩

/-- Environment-supplied outcome of one run of `authenticate()`: either a
thrown error (state untouched — all session-field assignments of
`completeOidcFlow` happen after its last throw point), or success with
the id token, the merged cookie jar, and the computed expiry.  Note that
`authenticate()` never assigns `refreshToken`. -/
inductive AuthOutcome where
  | failure (e : IESApiError)
  | success (idToken : String) (cookies : String) (expiry : JsDate)

/-- State effect of one `authenticate()` run (`completeOidcFlow`,
client.ts lines 313-327): on success `sessionCookies`, `accessToken` and
`tokenExpiresAt` are assigned; `refreshToken` is left unchanged. -/
def applyAuthOutcome (s : SessionState) (o : AuthOutcome) : SessionState :=
  match o with
  | .failure _ => s
  | .success idToken cookies expiry =>
    { s with accessToken := some idToken, sessionCookies := some cookies,
             tokenExpiresAt := some expiry }

/-- Body of a successful `/connect/token` refresh response
(`OAuthTokenResponse`). -/
structure OAuthTokenResponse where
  access_token : String
  refresh_token : String
  expires_in : Int

/-- Environment-supplied outcome of the refresh-grant POST inside
`refreshTokens()`: the fetch threw, returned a non-ok response, or
returned token data. -/
inductive RefreshHttp where
  | thrown
  | notOk
  | ok (tokenData : OAuthTokenResponse)

/-- Environment for one `refreshTokens()` call: the HTTP outcome of the
refresh grant, the outcome of the fallback `authenticate()` (used when no
refresh token is held, the response is not ok, or the grant threw), and
the current instant. -/
structure RefreshEnv where
  http : RefreshHttp
  auth : AuthOutcome
  nowMs : Int

/-- The `refreshTokens` method (client.ts lines 388-438) as a state
transformer: with a falsy refresh token it falls back to a full
`authenticate()`; likewise on a non-ok response or a thrown error.  On
success it assigns access token, refresh token and expiry. -/
def refreshTokens (s : SessionState) (env : RefreshEnv) : SessionState :=
  if ¬ truthyOpt s.refreshToken then applyAuthOutcome s env.auth
  else
    match env.http with
    | .thrown => applyAuthOutcome s env.auth
    | .notOk => applyAuthOutcome s env.auth
    | .ok td =>
      { s with accessToken := some td.access_token,
               refreshToken := some td.refresh_token,
               tokenExpiresAt := some (JsDate.valid (env.nowMs + td.expires_in * 1000)) }

/-- Reachable session states of one client instance: the initial state,
and closure under every operation that mutates session fields —
`authenticate()`, `refreshTokens()`, the token clearing of
`fetchFromEndpoint` (line 534/544), and the token-and-cookie clearing of
`fetchCsrfToken`/`postSetting` (lines 736-737, 857-858, 872-873). -/
inductive Reachable : SessionState → Prop
  | init : Reachable initialState
  | auth (s : SessionState) (o : AuthOutcome) : Reachable s → Reachable (applyAuthOutcome s o)
  | refresh (s : SessionState) (env : RefreshEnv) : Reachable s → Reachable (refreshTokens s env)
  | clearToken (s : SessionState) : Reachable s → Reachable { s with accessToken := none }
  | clearTokenAndCookies (s : SessionState) :
      Reachable s → Reachable { s with accessToken := none, sessionCookies := none }

/-- An HTTP response as observed by `fetchFromEndpoint`: status, the
redirect flag and final URL, and the `response.json()` outcome
(`Except.error msg` models a thrown body/JSON error). -/
structure FetchResponse where
  status : Nat
  redirected : Bool
  url : String
  json : Except String IESApiResponse

/-- Outcome of one `fetch` call: a response, an abort (timeout), or
another thrown network error. -/
inductive FetchOutcome where
  | response (r : FetchResponse)
  | abortError
  | networkError (msg : String)

/-- Environment for one attempt of `fetchFromEndpoint`: the behavior of
the leading `ensureAuthenticated()` as a transformer of the stored
session state (an error, or the session state it leaves behind), and the
outcome of the endpoint fetch. -/
structure AttemptEnv where
  ensure : SessionState → Except IESApiError SessionState
  outcome : FetchOutcome

/-- Auth-failure signal on a read response (client.ts lines 531 and 541):
status 401 or 403, or a followed redirect whose final URL contains
`login`. -/
def isAuthSignal (r : FetchResponse) : Bool :=
  (r.status == 401 || r.status == 403) || (r.redirected && jsIncludes r.url "login")

/-- The `fetchFromEndpoint` method (client.ts lines 505-570).  Each
attempt consumes one `AttemptEnv`; an empty environment list models an
environment with no response left and surfaces as a network error.  On an
auth-failure signal with `retryOnAuth` true, the stored access token is
cleared and the method re-invokes itself once with the flag false; with
the flag false the same signal is a terminal error with
`authFailure = true`. -/
def fetchFromEndpoint (envs : List AttemptEnv) (s : SessionState) (retryOnAuth : Bool) :
    Except IESApiError (SessionState × List (String × TemperatureReading)) :=
  match envs with
  | [] => .error ⟨"Network error: no response", none, false⟩
  | env :: rest =>
    match env.ensure s with
    | .error e => .error e
    | .ok s1 =>
      if ¬ truthyOpt s1.accessToken then
        .error ⟨"Not authenticated", none, true⟩
      else
        match env.outcome with
        | .abortError => .error ⟨"Request timed out", none, false⟩
        | .networkError msg => .error ⟨"Network error: " ++ msg, none, false⟩
        | .response r =>
          if r.status == 401 || r.status == 403 then
            if retryOnAuth then
              fetchFromEndpoint rest { s1 with accessToken := none } false
            else
              .error ⟨"Authentication failed - check your credentials", some r.status, true⟩
          else if r.redirected && jsIncludes r.url "login" then
            if retryOnAuth then
              fetchFromEndpoint rest { s1 with accessToken := none } false
            else
              .error ⟨"Session expired - authentication failed", some 302, true⟩
          else if ¬ (200 ≤ r.status ∧ r.status ≤ 299) then
            .error ⟨s!"API request failed with status {r.status}", some r.status, false⟩
          else
            match r.json with
            | .error msg => .error ⟨"Network error: " ++ msg, none, false⟩
            | .ok data => .ok (s1, parseResponse data)

/-- Success test of the capture group in `value="([^"]+)"`: at least one
non-quote character followed by a closing quote. -/
def captureOk (cs : List Char) : Bool :=
  let cap := cs.takeWhile (· ≠ '"')
  (¬ cap.isEmpty) && ((cs.drop cap.length).head? == some '"')

/-- Literal `value="` of the scraping patterns. -/
def valueLit : List Char := "value=\"".toList

/-- Match of `[^>]*value="([^"]+)"` against `rest`: the greedy `[^>]*`
with backtracking selects the largest offset `j` inside the `>`-free
prefix at which `value="` is followed by a non-empty quote-delimited
capture; returns that capture. -/
def matchCapture (rest : List Char) : Option String :=
  let window := rest.takeWhile (· ≠ '>')
  let cands := (List.range (window.length + 1)).filter (fun j =>
    valueLit.isPrefixOf (rest.drop j) && captureOk (rest.drop (j + valueLit.length)))
  match cands.getLast? with
  | some j => some (String.mk ((rest.drop (j + valueLit.length)).takeWhile (· ≠ '"')))
  | none => none

/-- Leftmost-match scan for `lit[^>]*value="([^"]+)"`: try each start
position left to right; at a position where the literal matches but the
remainder does not, the scan resumes one character further. -/
def findTokenValueAux (lit : List Char) : List Char → Option String
  | [] => none
  | c :: cs =>
    if lit.isPrefixOf (c :: cs) then
      match matchCapture ((c :: cs).drop lit.length) with
      | some v => some v
      | none => findTokenValueAux lit cs
    else findTokenValueAux lit cs

/-- The scraping regex `name="<field>"[^>]*value="([^"]+)"` used by
`getLoginPage` (client.ts lines 135 and 142), `getAuthorizationCode` and
`fetchCsrfToken`: first match's capture, or `none`. -/
def findTokenValue (field : String) (html : String) : Option String :=
  findTokenValueAux ("name=\"" ++ field ++ "\"").toList html.toList

/-- Errors thrown out of one authentication step: either an `IESApiError`
raised by the step itself, or a plain JavaScript error (abort, network,
URI decoding), identified by its `name` and `message`. -/
inductive AuthStepError where
  | apiError (e : IESApiError)
  | jsError (name msg : String)
deriving Repr, DecidableEq

/-- Values extracted by `getLoginPage` from the rendered login page. -/
structure LoginScrape where
  csrfToken : String
  returnUrl : String
  sessionCookies : String
deriving Repr, DecidableEq

/-- Scraping tail of `getLoginPage` (client.ts lines 135-151): a missing
CSRF token throws; a missing `ReturnUrl` match does NOT throw and yields
the empty string; then falsy session cookies throw.  `dec` abstracts
`decodeURIComponent` (`none` models a thrown `URIError`), applied after
replacing every `&amp;` with `&`. -/
def scrapeLoginPage (dec : String → Option String) (html : String)
    (sessionCookies : String) : Except AuthStepError LoginScrape :=
  match findTokenValue "__RequestVerificationToken" html with
  | none => .error (.apiError ⟨"Failed to extract CSRF token from login page", none, false⟩)
  | some csrf =>
    let ret : Except AuthStepError String :=
      match findTokenValue "ReturnUrl" html with
      | none => .ok ""
      | some v =>
        match dec (v.replace "&amp;" "&") with
        | none => .error (.jsError "URIError" "URI malformed")
        | some decoded => .ok decoded
    match ret with
    | .error e => .error e
    | .ok returnUrl =>
      if sessionCookies = "" then
        .error (.apiError ⟨"Failed to get session cookies from login page", none, false⟩)
      else .ok ⟨csrf, returnUrl, sessionCookies⟩

/-- Catch-all wrapper of `authenticate()` (client.ts lines 57-65): an
`IESApiError` thrown by a step is rethrown unchanged; any other thrown
`Error` — including an `AbortError` from a timed-out fetch — is wrapped
as `IESApiError` with `authFailure = true`. -/
def authenticateWrap (r : Except AuthStepError Unit) : Except IESApiError Unit :=
  match r with
  | .ok _ => .ok ()
  | .error (.apiError e) => .error e
  | .error (.jsError _ msg) => .error ⟨"Authentication failed: " ++ msg, none, true⟩

/-- Options of one `fetch` call of the authentication flow that matter to
the timeout claims: its redirect mode and whether an `AbortController`
timeout signal is attached. -/
structure FetchInit where
  redirectMode : String
  hasTimeoutSignal : Bool
deriving Repr, DecidableEq

/-- Step-1a bootstrap GET of the application root (client.ts lines 81-89):
`redirect: 'manual'` and NO timeout signal. -/
def bootstrapInit : FetchInit := ⟨"manual", false⟩

/-- Step-1b login page GET (client.ts lines 108-120): follows redirects,
with a timeout signal. -/
def loginPageInit : FetchInit := ⟨"follow", true⟩

/-- Step-2 credential POST (client.ts lines 172-186): manual redirects,
with a timeout signal. -/
def submitLoginInit : FetchInit := ⟨"manual", true⟩

/-- Step-3 authorization-code GET (client.ts lines 224-235): manual
redirects, with a timeout signal. -/
def authCodeInit : FetchInit := ⟨"manual", true⟩

/-- Step-4 `signin-oidc` POST (client.ts lines 284-298): manual redirects,
with a timeout signal. -/
def signinOidcInit : FetchInit := ⟨"manual", true⟩

/-- The fetch calls issued by one `authenticate()` run, in order. -/
def authFlowInits : List FetchInit :=
  [bootstrapInit, loginPageInit, submitLoginInit, authCodeInit, signinOidcInit]

/-- Select fields of the settings form, each sent as `-1` unless it is the
field being written (client.ts lines 807-813). -/
def selectFields : List String :=
  ["_USER_Parameters_MainSwitch_C", "_USER_Parameters_SeasonMode_C",
   "_USER_HeatSPCtrl_Type_C", "_USER_HeatSPCtrl_Curve_C", "_USER_HotWater_Source_C",
   "_USER_Heating_Source_C", "_USER_Heating_CtrlMode_C"]

/-- Writable text/number fields of the settings form, each sent as `""`
unless it is the field being written (client.ts lines 816-819). -/
def textFields : List String :=
  ["_USER_HeatSPCtrl_ToffSet_T", "_USER_HotWater_SetPoint_T",
   "_USER_Heating_SetPointMin_T", "_USER_HeatSPCtrl_TroomSet_T"]

/-- Clock fields of the settings form, ALWAYS sent as `""` — even when one
of them is named as the field being written (client.ts lines 820-824). -/
def timeFields : List String :=
  ["_USER_Time_Year_T", "_USER_Time_Month_T", "_USER_Time_Day_T",
   "_USER_Time_Hour_T", "_USER_Time_Minute_T"]

/-- Names of every field of the submitted settings form, in submission
order. -/
def formFieldNames : List String :=
  ["btnSubmit", "hdnDeviceId"] ++ selectFields ++ textFields ++ timeFields ++
    ["__RequestVerificationToken"]

/-- The form built by `postSetting` (client.ts lines 800-827): every known
field is appended; each select field carries the caller's value when it is
`fieldName` and `-1` otherwise; each writable text field carries the value
when it is `fieldName` and `""` otherwise; the five time fields always
carry `""`; plus `btnSubmit`, the device id and the CSRF token. -/
def buildSettingsForm (deviceId fieldName value csrfToken : String) :
    List (String × String) :=
  [("btnSubmit", ""),
   ("hdnDeviceId", deviceId),
   ("_USER_Parameters_MainSwitch_C", if fieldName = "_USER_Parameters_MainSwitch_C" then value else "-1"),
   ("_USER_Parameters_SeasonMode_C", if fieldName = "_USER_Parameters_SeasonMode_C" then value else "-1"),
   ("_USER_HeatSPCtrl_Type_C", if fieldName = "_USER_HeatSPCtrl_Type_C" then value else "-1"),
   ("_USER_HeatSPCtrl_Curve_C", if fieldName = "_USER_HeatSPCtrl_Curve_C" then value else "-1"),
   ("_USER_HotWater_Source_C", if fieldName = "_USER_HotWater_Source_C" then value else "-1"),
   ("_USER_Heating_Source_C", if fieldName = "_USER_Heating_Source_C" then value else "-1"),
   ("_USER_Heating_CtrlMode_C", if fieldName = "_USER_Heating_CtrlMode_C" then value else "-1"),
   ("_USER_HeatSPCtrl_ToffSet_T", if fieldName = "_USER_HeatSPCtrl_ToffSet_T" then value else ""),
   ("_USER_HotWater_SetPoint_T", if fieldName = "_USER_HotWater_SetPoint_T" then value else ""),
   ("_USER_Heating_SetPointMin_T", if fieldName = "_USER_Heating_SetPointMin_T" then value else ""),
   ("_USER_HeatSPCtrl_TroomSet_T", if fieldName = "_USER_HeatSPCtrl_TroomSet_T" then value else ""),
   ("_USER_Time_Year_T", ""),
   ("_USER_Time_Month_T", ""),
   ("_USER_Time_Day_T", ""),
   ("_USER_Time_Hour_T", ""),
   ("_USER_Time_Minute_T", ""),
   ("__RequestVerificationToken", csrfToken)]


/-- Qualification predicate of one `viewParameters` entry for key `k`: a
truthy id equal to `k`, a defined `actualValue`, and a raw text on which
`parseFloat` is not NaN — exactly the conditions under which
`parseResponse` inserts a reading. -/
def paramQualifies (p : ViewParameter) (k : String) : Prop :=
  p.id = some k ∧ k ≠ "" ∧ ∃ raw, p.actualValue = some raw ∧ jsParseFloatClass raw ≠ .nan

theorem lookup_cons_self {α : Type} (k : String) (v : α) (t : List (String × α)) :
    List.lookup k ((k, v) :: t) = some v := by
  simp [List.lookup]

theorem lookup_cons_ne {α : Type} (k a : String) (v : α) (t : List (String × α))
    (h : k ≠ a) : List.lookup k ((a, v) :: t) = List.lookup k t := by
  simp [List.lookup, beq_eq_false_iff_ne.mpr h]

theorem lookup_jsMapSet {α : Type} (m : List (String × α)) (k k' : String) (v : α) :
    List.lookup k' (jsMapSet m k v) = if k' = k then some v else List.lookup k' m := by
  induction m with
  | nil =>
    simp only [jsMapSet]
    by_cases h : k' = k
    · subst h
      rw [lookup_cons_self, if_pos rfl]
    · rw [lookup_cons_ne k' k v [] h, if_neg h]
  | cons p t ih =>
    obtain ⟨a, b⟩ := p
    simp only [jsMapSet]
    by_cases hak : a = k
    · rw [if_pos hak]
      by_cases hk' : k' = a
      · subst hk'
        rw [lookup_cons_self, lookup_cons_self, if_pos hak]
      · have hk'k : k' ≠ k := hak ▸ hk'
        rw [lookup_cons_ne k' a v t hk', lookup_cons_ne k' a b t hk', if_neg hk'k]
    · rw [if_neg hak]
      by_cases hk' : k' = a
      · subst hk'
        rw [lookup_cons_self, lookup_cons_self, if_neg hak]
      · rw [lookup_cons_ne k' a b _ hk', ih]
        by_cases hkk : k' = k
        · rw [if_pos hkk, if_pos hkk]
        · rw [if_neg hkk, if_neg hkk, lookup_cons_ne k' a b t hk']

theorem mem_keys_jsMapSet {α : Type} (m : List (String × α)) (k a : String) (v : α) :
    a ∈ (jsMapSet m k v).map Prod.fst ↔ a ∈ m.map Prod.fst ∨ a = k := by
  induction m with
  | nil => simp [jsMapSet]
  | cons p t ih =>
    obtain ⟨b, c⟩ := p
    by_cases hbk : b = k
    · subst hbk
      rw [jsMapSet, if_pos rfl]
      simp only [List.map_cons, List.mem_cons]
      tauto
    · rw [jsMapSet, if_neg hbk]
      simp only [List.map_cons, List.mem_cons, ih]
      tauto

theorem nodup_keys_jsMapSet {α : Type} (m : List (String × α)) (k : String) (v : α)
    (h : (m.map Prod.fst).Nodup) : ((jsMapSet m k v).map Prod.fst).Nodup := by
  induction m with
  | nil => simp [jsMapSet]
  | cons p t ih =>
    obtain ⟨b, c⟩ := p
    rw [List.map_cons, List.nodup_cons] at h
    by_cases hbk : b = k
    · subst hbk
      rw [jsMapSet, if_pos rfl, List.map_cons, List.nodup_cons]
      exact h
    · rw [jsMapSet, if_neg hbk, List.map_cons, List.nodup_cons]
      refine ⟨?_, ih h.2⟩
      rw [mem_keys_jsMapSet]
      rintro (hmem | rfl)
      · exact h.1 hmem
      · exact hbk rfl

theorem lookup_foldl_jsMapSet (l : List (String × TemperatureReading))
    (m : List (String × TemperatureReading)) (k : String) :
    List.lookup k (l.foldl (fun m kv => jsMapSet m kv.1 kv.2) m) =
      match l.reverse.find? (fun p => p.1 == k) with
      | some p => some p.2
      | none => List.lookup k m := by
  induction l generalizing m with
  | nil => simp
  | cons p t ih =>
    rw [List.foldl_cons, List.reverse_cons, List.find?_append, ih]
    cases hfind : t.reverse.find? (fun q => q.1 == k) with
    | some q => simp [Option.or]
    | none =>
      rw [Option.none_or, lookup_jsMapSet]
      by_cases hpk : p.1 = k
      · rw [List.find?_cons_of_pos _ (by simp [hpk]), if_pos hpk.symm]
      · rw [List.find?_cons_of_neg _ (by simp [hpk]), List.find?_nil,
          if_neg (fun h => hpk h.symm)]

theorem lookup_foldl_cookieSet (l : List (String × String)) (m : List (String × String))
    (k : String) (hk : k ≠ "") :
    List.lookup k (l.foldl cookieSet m) =
      match l.reverse.find? (fun p => p.1 == k) with
      | some p => some p.2
      | none => List.lookup k m := by
  induction l generalizing m with
  | nil => simp
  | cons p t ih =>
    rw [List.foldl_cons, List.reverse_cons, List.find?_append, ih]
    cases hfind : t.reverse.find? (fun q => q.1 == k) with
    | some q => simp [Option.or]
    | none =>
      rw [Option.none_or]
      unfold cookieSet
      by_cases hp1 : p.1 = ""
      · have hpk : p.1 ≠ k := fun h => hk (hp1 ▸ h.symm ▸ rfl)
        rw [if_neg (fun h => h hp1), List.find?_cons_of_neg _ (by simp [hpk]),
          List.find?_nil]
      · rw [if_pos hp1, lookup_jsMapSet]
        by_cases hpk : p.1 = k
        · rw [List.find?_cons_of_pos _ (by simp [hpk]), if_pos hpk.symm]
        · rw [List.find?_cons_of_neg _ (by simp [hpk]), List.find?_nil,
            if_neg (fun h => hpk h.symm)]

theorem nodup_keys_foldl_cookieSet (l : List (String × String)) (m : List (String × String))
    (h : (m.map Prod.fst).Nodup) : ((l.foldl cookieSet m).map Prod.fst).Nodup := by
  induction l generalizing m with
  | nil => simpa using h
  | cons p t ih =>
    rw [List.foldl_cons]
    apply ih
    unfold cookieSet
    by_cases hp1 : p.1 = ""
    · rw [if_neg (fun hcon => hcon hp1)]
      exact h
    · rw [if_pos hp1]
      exact nodup_keys_jsMapSet _ _ _ h

theorem find?_key_of_nodup_mem (l : List (String × TemperatureReading)) (k : String)
    (v : TemperatureReading) (hnd : (l.map Prod.fst).Nodup) (hmem : (k, v) ∈ l) :
    l.find? (fun p => p.1 == k) = some (k, v) := by
  induction l with
  | nil => cases hmem
  | cons p t ih =>
    rw [List.map_cons, List.nodup_cons] at hnd
    rcases List.mem_cons.mp hmem with rfl | hmem2
    · exact List.find?_cons_of_pos _ (by simp)
    · have hpk : p.1 ≠ k := by
        intro hEq
        exact hnd.1 (hEq ▸ List.mem_map.mpr ⟨(k, v), hmem2, rfl⟩)
      rw [List.find?_cons_of_neg _ (by simp [hpk])]
      exact ih hnd.2 hmem2

theorem lookup_insertParam_isSome (m : List (String × TemperatureReading))
    (p : ViewParameter) (k : String) :
    (List.lookup k (insertParam m p)).isSome = true ↔
      paramQualifies p k ∨ (List.lookup k m).isSome = true := by
  unfold insertParam
  cases hid : p.id with
  | none => simp [paramQualifies, hid]
  | some pid =>
    dsimp only
    by_cases hpid : pid = ""
    · subst hpid
      rw [if_pos rfl]
      simp only [paramQualifies, hid, Option.some.injEq]
      constructor
      · exact Or.inr
      · rintro (⟨rfl, hne, _⟩ | h)
        · exact absurd rfl hne
        · exact h
    · rw [if_neg hpid]
      cases hav : p.actualValue with
      | none => simp [paramQualifies, hid, hav]
      | some raw =>
        dsimp only
        by_cases hnan : jsParseFloatClass raw = .nan
        · rw [if_pos hnan]
          simp only [paramQualifies, hid, hav, Option.some.injEq, iff_or_self]
          rintro ⟨hkpid, hne, r, hr, hrnan⟩
          exact absurd hnan (by rwa [hr])
        · rw [if_neg hnan, lookup_jsMapSet]
          by_cases hk : k = pid
          · subst hk
            rw [if_pos rfl]
            simp only [Option.isSome_some, true_iff]
            exact Or.inl ⟨hid, hpid, raw, hav, hnan⟩
          · rw [if_neg hk]
            simp only [paramQualifies, hid, hav, Option.some.injEq]
            constructor
            · exact Or.inr
            · rintro (⟨hEq, _, _⟩ | h)
              · exact absurd hEq.symm hk
              · exact h

theorem lookup_foldl_insertParam_isSome (ps : List ViewParameter)
    (m : List (String × TemperatureReading)) (k : String) :
    (List.lookup k (ps.foldl insertParam m)).isSome = true ↔
      (∃ p ∈ ps, paramQualifies p k) ∨ (List.lookup k m).isSome = true := by
  induction ps generalizing m with
  | nil => simp
  | cons p t ih =>
    rw [List.foldl_cons, ih, lookup_insertParam_isSome]
    constructor
    · rintro (⟨q, hq, hqual⟩ | hqual | hm)
      · exact Or.inl ⟨q, List.mem_cons_of_mem p hq, hqual⟩
      · exact Or.inl ⟨p, List.mem_cons_self p t, hqual⟩
      · exact Or.inr hm
    · rintro (⟨q, hq, hqual⟩ | hm)
      · rcases List.mem_cons.mp hq with rfl | hq'
        · exact Or.inr (Or.inl hqual)
        · exact Or.inl ⟨q, hq', hqual⟩
      · exact Or.inr (Or.inr hm)

theorem lookup_parseGroup_isSome (m : List (String × TemperatureReading))
    (g : ApiGroup) (k : String) :
    (List.lookup k (parseGroup m g)).isSome = true ↔
      (∃ ps, g.viewParameters = some ps ∧ ∃ p ∈ ps, paramQualifies p k) ∨
        (List.lookup k m).isSome = true := by
  unfold parseGroup
  cases hvp : g.viewParameters with
  | none => simp
  | some ps =>
    rw [lookup_foldl_insertParam_isSome]
    simp [hvp]

theorem lookup_foldl_parseGroup_isSome (gs : List ApiGroup)
    (m : List (String × TemperatureReading)) (k : String) :
    (List.lookup k (gs.foldl parseGroup m)).isSome = true ↔
      (∃ g ∈ gs, ∃ ps, g.viewParameters = some ps ∧ ∃ p ∈ ps, paramQualifies p k) ∨
        (List.lookup k m).isSome = true := by
  induction gs generalizing m with
  | nil => simp
  | cons g t ih =>
    rw [List.foldl_cons, ih, lookup_parseGroup_isSome]
    constructor
    · rintro (⟨g', hg', hx⟩ | hx | hm)
      · exact Or.inl ⟨g', List.mem_cons_of_mem g hg', hx⟩
      · exact Or.inl ⟨g, List.mem_cons_self g t, hx⟩
      · exact Or.inr hm
    · rintro (⟨g', hg', hx⟩ | hm)
      · rcases List.mem_cons.mp hg' with rfl | hg2
        · exact Or.inr (Or.inl hx)
        · exact Or.inl ⟨g', hg2, hx⟩
      · exact Or.inr (Or.inr hm)

theorem fetchFromEndpoint_false_ignores_rest (e : AttemptEnv) (rest : List AttemptEnv)
    (s : SessionState) :
    fetchFromEndpoint (e :: rest) s false = fetchFromEndpoint [e] s false := by
  simp [fetchFromEndpoint]

/-- C3: `fetchReadings()` merges the monitoring and settings maps such
that a key present in settings takes the settings value, a key present
only in monitoring keeps the monitoring value, and no other key appears
in the merged map. -/
theorem fetchReadingsMerge_settings_precedence
    (monitoring settings : List (String × TemperatureReading)) (k : String)
    (v : TemperatureReading) :
    ((settings.map Prod.fst).Nodup → (k, v) ∈ settings →
      List.lookup k (fetchReadingsMerge monitoring settings) = some v) ∧
    (k ∉ settings.map Prod.fst →
      List.lookup k (fetchReadingsMerge monitoring settings) = List.lookup k monitoring) ∧
    (k ∉ settings.map Prod.fst → List.lookup k monitoring = none →
      List.lookup k (fetchReadingsMerge monitoring settings) = none) := by
  have habsent : k ∉ settings.map Prod.fst →
      List.lookup k (fetchReadingsMerge monitoring settings) = List.lookup k monitoring := by
    intro hk
    rw [fetchReadingsMerge, lookup_foldl_jsMapSet]
    have hnone : settings.reverse.find? (fun p => p.1 == k) = none := by
      rw [List.find?_eq_none]
      intro x hx
      simp only [beq_iff_eq]
      intro hEq
      exact hk (List.mem_map.mpr ⟨x, List.mem_reverse.mp hx, hEq⟩)
    rw [hnone]
  refine ⟨?_, habsent, ?_⟩
  · intro hnd hmem
    rw [fetchReadingsMerge, lookup_foldl_jsMapSet]
    have hfind : settings.reverse.find? (fun p => p.1 == k) = some (k, v) := by
      apply find?_key_of_nodup_mem
      · rw [List.map_reverse]
        exact List.nodup_reverse.mpr hnd
      · exact List.mem_reverse.mpr hmem
    rw [hfind]
  · intro hk hmon
    rw [habsent hk, hmon]

/-- Witness for C3: with monitoring reporting `10.0` and settings
reporting `12.0` for key `k`, the merged value is the settings one. -/
theorem fetchReadingsMerge_settings_precedence_witness :
    List.lookup "k" (fetchReadingsMerge [("k", ⟨"k", "10.0"⟩)] [("k", ⟨"k", "12.0"⟩)]) =
      some ⟨"k", "12.0"⟩ :=
  (fetchReadingsMerge_settings_precedence [("k", ⟨"k", "10.0"⟩)] [("k", ⟨"k", "12.0"⟩)]
    "k" ⟨"k", "12.0"⟩).1 (by decide) (by decide)

/-- C9: `mergeCookies` renders a map in which each cookie name appears
exactly once, bound to the value of the last Set-Cookie header naming
it, or to its existing-jar value if no new header names it; names never
seen are absent. -/
theorem mergeCookies_last_value_wins (existing : String) (hs : List String) (name : String) :
    (((mergeCookiesMap existing hs).map Prod.fst).Nodup) ∧
    (mergeCookies existing hs =
      String.intercalate "; " ((mergeCookiesMap existing hs).map
        (fun p => p.1 ++ "=" ++ p.2))) ∧
    (name ≠ "" →
      List.lookup name (mergeCookiesMap existing hs) =
        (lastValueFor name (hs.map
            (fun sc => parseCookiePair ((sc.splitOn ";").headD "")))).or
          (lastValueFor name ((existing.splitOn "; ").map parseCookiePair))) := by
  have hex : (existing.splitOn "; ").foldl
        (fun m c => cookieSet m (parseCookiePair c)) ([] : List (String × String)) =
      ((existing.splitOn "; ").map parseCookiePair).foldl cookieSet [] := by
    rw [List.foldl_map]
  have hnew : ∀ m0 : List (String × String), hs.foldl
        (fun m sc => cookieSet m (parseCookiePair ((sc.splitOn ";").headD ""))) m0 =
      (hs.map (fun sc => parseCookiePair ((sc.splitOn ";").headD ""))).foldl cookieSet m0 := by
    intro m0
    rw [List.foldl_map]
  refine ⟨?_, rfl, ?_⟩
  · unfold mergeCookiesMap
    rw [hnew, hex]
    apply nodup_keys_foldl_cookieSet
    apply nodup_keys_foldl_cookieSet
    simp
  · intro hname
    unfold mergeCookiesMap
    rw [hnew, hex, lookup_foldl_cookieSet _ _ _ hname]
    cases hfn : (hs.map fun sc => parseCookiePair ((sc.splitOn ";").headD "")).reverse.find?
        (fun p => p.1 == name) with
    | some p =>
      simp only [lastValueFor]
      rw [hfn]
      simp [Option.or]
    | none =>
      rw [lookup_foldl_cookieSet _ _ _ hname]
      simp only [lastValueFor]
      rw [hfn]
      cases hfe : ((existing.splitOn "; ").map parseCookiePair).reverse.find?
          (fun p => p.1 == name) with
      | some q => simp [Option.or]
      | none => simp [Option.or, List.lookup]

/-- Witness for C9: jar `a=1; b=2` merged with headers naming `a` twice
ends with the last header value for `a`, the existing value for `b`, a
new cookie `c`, and no entry for an unseen name. -/
theorem mergeCookies_last_value_wins_witness :
    List.lookup "a" (mergeCookiesMap "a=1; b=2" ["a=9; Path=/", "c=3", "a=10"]) =
      (lastValueFor "a" (["a=9; Path=/", "c=3", "a=10"].map
          (fun sc => parseCookiePair ((sc.splitOn ";").headD "")))).or
        (lastValueFor "a" (("a=1; b=2".splitOn "; ").map parseCookiePair)) :=
  (mergeCookies_last_value_wins "a=1; b=2" ["a=9; Path=/", "c=3", "a=10"] "a").2.2 (by decide)

/-- C4 counterexample: the payload value `"Infinity"` does not parse as a
finite number (`parseFloat` yields `Infinity`), yet `parseResponse`
inserts a reading for it, because the code only rejects NaN. -/
theorem parseResponse_infinity_inserted :
    List.lookup "p" (parseResponse ⟨some [⟨some [⟨some "p", some "Infinity"⟩]⟩]⟩) =
      some ⟨"p", "Infinity"⟩ ∧ jsParseFloatClass "Infinity" ≠ FloatClass.finite := by
  constructor
  · rfl
  · decide

/-- C4 amended: `parseResponse` inserts a reading for key `k` exactly
when some parameter of some group has a truthy id equal to `k`, a
defined `actualValue`, and a raw text on which `parseFloat` is not NaN
(infinite parses are accepted); failing parameters are dropped without
aborting their siblings. -/
theorem parseResponse_insertion_iff (data : IESApiResponse) (k : String) :
    (List.lookup k (parseResponse data)).isSome = true ↔
      ∃ gs, data.groups = some gs ∧ ∃ g ∈ gs, ∃ ps, g.viewParameters = some ps ∧
        ∃ p ∈ ps, paramQualifies p k := by
  unfold parseResponse
  cases hg : data.groups with
  | none => simp [List.lookup]
  | some gs =>
    dsimp only
    rw [lookup_foldl_parseGroup_isSome]
    simp [List.lookup]

/-- Witness for C4: a sibling of a non-numeric parameter is still
inserted. -/
theorem parseResponse_insertion_iff_witness :
    (List.lookup "r" (parseResponse ⟨some [⟨some [⟨some "q", some "TOGGLE_VALUE_OFFON_1"⟩,
        ⟨some "r", some "10.0"⟩]⟩]⟩)).isSome = true := by
  apply (parseResponse_insertion_iff ⟨some [⟨some [⟨some "q", some "TOGGLE_VALUE_OFFON_1"⟩,
      ⟨some "r", some "10.0"⟩]⟩]⟩ "r").mpr
  refine ⟨_, rfl, ⟨some [⟨some "q", some "TOGGLE_VALUE_OFFON_1"⟩, ⟨some "r", some "10.0"⟩]⟩,
    by simp, _, rfl, ⟨some "r", some "10.0"⟩, by simp, rfl, by decide, "10.0", rfl, by decide⟩

/-- C5: when the middle `.`-separated segment of the bearer token decodes
to a payload with a numeric `exp` claim, the stored expiry is `exp`
seconds since the epoch; when the segment is missing or its decoding
throws, the expiry defaults to one hour after the authentication
instant. -/
theorem tokenExpiry_exp_or_default (dec : String → Option JwtPayload) (idToken : String)
    (nowMs e : Int) (seg : String) :
    (((jsSplitChar '.' idToken).get? 1 = some seg → dec seg = some ⟨some e⟩ →
      tokenExpiry dec idToken nowMs = .valid (e * 1000))) ∧
    (((jsSplitChar '.' idToken).get? 1 = none →
      tokenExpiry dec idToken nowMs = .valid (nowMs + 3600 * 1000))) ∧
    (((jsSplitChar '.' idToken).get? 1 = some seg → dec seg = none →
      tokenExpiry dec idToken nowMs = .valid (nowMs + 3600 * 1000))) := by
  refine ⟨?_, ?_, ?_⟩
  · intro hseg hdec
    unfold tokenExpiry
    rw [hseg]
    dsimp only
    rw [hdec]
  · intro hseg
    unfold tokenExpiry
    rw [hseg]
  · intro hseg hdec
    unfold tokenExpiry
    rw [hseg]
    dsimp only
    rw [hdec]

/-- Witness for C5: a three-segment token whose payload decodes with
`exp = 1700000000` yields expiry `1700000000 * 1000` ms, and a dot-free
token defaults to now + 1 hour. -/
theorem tokenExpiry_exp_or_default_witness :
    tokenExpiry (fun _ => some ⟨some 1700000000⟩) "h.p.s" 50 = .valid (1700000000 * 1000) ∧
    tokenExpiry (fun _ => some ⟨some 1700000000⟩) "nodots" 50 = .valid (50 + 3600 * 1000) := by
  constructor
  · exact (tokenExpiry_exp_or_default (fun _ => some ⟨some 1700000000⟩) "h.p.s" 50
      1700000000 "p").1 (by decide) rfl
  · exact (tokenExpiry_exp_or_default (fun _ => some ⟨some 1700000000⟩) "nodots" 50
      1700000000 "p").2.1 (by decide)

/-- C6: with a truthy bearer token and a valid expiry more than 60
seconds away, `ensureAuthenticated` performs no network call; with token
or expiry missing it authenticates; with a valid expiry within the
60-second buffer it refreshes. -/
theorem ensureAuthenticated_buffer (tok : Option String) (xp : Option JsDate)
    (nowMs e : Int) (t : String) :
    ((tok = some t → t ≠ "" → xp = some (.valid e) → nowMs < e - 60000 →
      ensureAuthenticated tok xp nowMs = .noop)) ∧
    ((truthyOpt tok = false ∨ xp = none → ensureAuthenticated tok xp nowMs = .fullAuth)) ∧
    ((tok = some t → t ≠ "" → xp = some (.valid e) → nowMs ≥ e - 60000 →
      ensureAuthenticated tok xp nowMs = .refresh)) := by
  refine ⟨?_, ?_, ?_⟩
  · intro htok ht hxp hlt
    subst htok hxp
    rw [ensureAuthenticated.eq_def, if_neg (by simp [truthyOpt, ht])]
    show (if nowMs ≥ e - 60000 then EnsureAction.refresh else EnsureAction.noop) = EnsureAction.noop
    rw [if_neg (by omega)]
  · rintro (htok | hxp)
    · rw [ensureAuthenticated.eq_def, if_pos (by simp [htok])]
    · subst hxp
      cases htok : truthyOpt tok with
      | false => rw [ensureAuthenticated.eq_def, if_pos (by simp [htok])]
      | true => rw [ensureAuthenticated.eq_def, if_neg (by simp [htok])]
  · intro htok ht hxp hge
    subst htok hxp
    rw [ensureAuthenticated.eq_def, if_neg (by simp [truthyOpt, ht])]
    show (if nowMs ≥ e - 60000 then EnsureAction.refresh else EnsureAction.noop) = EnsureAction.refresh
    rw [if_pos hge]

/-- Witness for C6: a token expiring at 1,000,000 ms checked at 100 ms
triggers nothing; checked at 940,000 ms (inside the buffer) it triggers
a refresh; with no token it authenticates. -/
theorem ensureAuthenticated_buffer_witness :
    ensureAuthenticated (some "tok") (some (.valid 1000000)) 100 = .noop ∧
    ensureAuthenticated (some "tok") (some (.valid 1000000)) 940000 = .refresh ∧
    ensureAuthenticated none (some (.valid 1000000)) 100 = .fullAuth := by
  refine ⟨?_, ?_, ?_⟩
  · exact (ensureAuthenticated_buffer (some "tok") (some (.valid 1000000)) 100 1000000
      "tok").1 rfl (by decide) rfl (by decide)
  · exact (ensureAuthenticated_buffer (some "tok") (some (.valid 1000000)) 940000 1000000
      "tok").2.2 rfl (by decide) rfl (by decide)
  · exact (ensureAuthenticated_buffer none (some (.valid 1000000)) 100 1000000
      "tok").2.1 (Or.inl rfl)

theorem refreshToken_applyAuthOutcome (s : SessionState) (o : AuthOutcome) :
    (applyAuthOutcome s o).refreshToken = s.refreshToken := by
  cases o <;> rfl

theorem refreshTokens_fallback_of_none (s : SessionState) (h : s.refreshToken = none) :
    ∀ env : RefreshEnv, refreshTokens s env = applyAuthOutcome s env.auth := by
  intro env
  rw [refreshTokens, if_pos (by simp [h, truthyOpt])]

/-- C10: in every reachable session state the `refreshToken` field is
undefined — `authenticate()` never assigns it and the only assignment is
guarded by it already being truthy — and consequently every
`refreshTokens()` call takes the fall-back path and performs a full
`authenticate()`. -/
theorem refreshToken_never_populated (s : SessionState) (h : Reachable s) :
    s.refreshToken = none ∧
      ∀ env : RefreshEnv, refreshTokens s env = applyAuthOutcome s env.auth := by
  have hinv : s.refreshToken = none := by
    induction h with
    | init => rfl
    | auth s' o _ ih => rw [refreshToken_applyAuthOutcome, ih]
    | refresh s' env _ ih =>
      rw [refreshTokens_fallback_of_none s' ih env, refreshToken_applyAuthOutcome, ih]
    | clearToken s' _ ih => exact ih
    | clearTokenAndCookies s' _ ih => exact ih
  exact ⟨hinv, refreshTokens_fallback_of_none s hinv⟩

/-- Witness for C10: the initial state is reachable, its refresh token is
undefined, and a refresh call on it degenerates to `authenticate()`. -/
theorem refreshToken_never_populated_witness :
    initialState.refreshToken = none ∧
      refreshTokens initialState ⟨.thrown, .failure ⟨"x", none, true⟩, 0⟩ =
        applyAuthOutcome initialState (.failure ⟨"x", none, true⟩) := by
  have h := refreshToken_never_populated initialState Reachable.init
  exact ⟨h.1, h.2 ⟨.thrown, .failure ⟨"x", none, true⟩, 0⟩⟩

/-- C8 counterexample: the step-1 bootstrap GET of the application root
is issued without a timeout signal, and a timed-out (aborted) call
inside the authentication flow is wrapped by `authenticate()`'s catch-all
into an `IESApiError` whose `authFailure` flag is true — not a network
error distinguishable from an auth failure. -/
theorem authenticate_timeout_counterexample :
    bootstrapInit.hasTimeoutSignal = false ∧
      authenticateWrap (.error (.jsError "AbortError" "This operation was aborted")) =
        .error ⟨"Authentication failed: This operation was aborted", none, true⟩ :=
  ⟨rfl, rfl⟩

/-- C8 amended: every authentication fetch except the step-1 bootstrap
GET carries the per-request timeout signal; the bootstrap GET carries
none; and any plain thrown error during authentication — including an
abort — is wrapped with `authFailure = true`. -/
theorem authFlow_timeout_coverage :
    ((authFlowInits.drop 1).all (fun i => i.hasTimeoutSignal)) = true ∧
    bootstrapInit.hasTimeoutSignal = false ∧
    ∀ n msg : String, authenticateWrap (.error (.jsError n msg)) =
      .error ⟨"Authentication failed: " ++ msg, none, true⟩ :=
  ⟨rfl, rfl, fun _ _ => rfl⟩

/-- C7 counterexample: a login page carrying a CSRF token but no
`ReturnUrl` field does NOT make `getLoginPage` fail — the step succeeds
with an empty return URL (client.ts line 143 defaults it to `''`). -/
theorem scrapeLoginPage_missing_returnUrl_succeeds :
    findTokenValue "ReturnUrl"
        "<input name=\"__RequestVerificationToken\" type=\"hidden\" value=\"tok1\" />" = none ∧
      scrapeLoginPage (fun u => some u)
        "<input name=\"__RequestVerificationToken\" type=\"hidden\" value=\"tok1\" />" "a=b" =
        .ok ⟨"tok1", "", "a=b"⟩ := by
  exact ⟨by decide, rfl⟩

/-- C7 amended: `getLoginPage`'s scraping step fails when the CSRF token
is unscrapable or when no session cookies were set, but an unscrapable
`ReturnUrl` does not fail: with a CSRF token and non-empty cookies the
step succeeds with the empty return URL. -/
theorem scrapeLoginPage_failure_conditions (dec : String → Option String)
    (html cookies : String) :
    (findTokenValue "__RequestVerificationToken" html = none →
      ∃ e, scrapeLoginPage dec html cookies = .error e) ∧
    (cookies = "" → ∃ e, scrapeLoginPage dec html cookies = .error e) ∧
    (∀ c, findTokenValue "__RequestVerificationToken" html = some c →
      findTokenValue "ReturnUrl" html = none → cookies ≠ "" →
      scrapeLoginPage dec html cookies = .ok ⟨c, "", cookies⟩) := by
  refine ⟨?_, ?_, ?_⟩
  · intro hcsrf
    unfold scrapeLoginPage
    rw [hcsrf]
    exact ⟨_, rfl⟩
  · intro hcook
    unfold scrapeLoginPage
    cases hcsrf : findTokenValue "__RequestVerificationToken" html with
    | none => exact ⟨_, rfl⟩
    | some c =>
      dsimp only
      cases hret : findTokenValue "ReturnUrl" html with
      | none =>
        dsimp only
        rw [if_pos hcook]
        exact ⟨_, rfl⟩
      | some v =>
        dsimp only
        cases hdec : dec (v.replace "&amp;" "&") with
        | none => exact ⟨_, rfl⟩
        | some d =>
          dsimp only
          rw [if_pos hcook]
          exact ⟨_, rfl⟩
  · intro c hcsrf hret hcook
    unfold scrapeLoginPage
    rw [hcsrf]
    dsimp only
    rw [hret]
    dsimp only
    rw [if_neg hcook]

/-- Witness for C7: a page with no CSRF token fails, and an empty cookie
jar fails. -/
theorem scrapeLoginPage_failure_conditions_witness :
    (∃ e, scrapeLoginPage (fun u => some u) "no token here" "a=b" = .error e) ∧
    (∃ e, scrapeLoginPage (fun u => some u)
      "<input name=\"__RequestVerificationToken\" value=\"tok1\" />" "" = .error e) := by
  constructor
  · exact (scrapeLoginPage_failure_conditions (fun u => some u) "no token here" "a=b").1
      (by decide)
  · exact (scrapeLoginPage_failure_conditions (fun u => some u)
      "<input name=\"__RequestVerificationToken\" value=\"tok1\" />" "").2.1 rfl

theorem fetchFromEndpoint_auth_signal_step (env : AttemptEnv) (rest : List AttemptEnv)
    (s s1 : SessionState) (r : FetchResponse) (hens : env.ensure s = .ok s1)
    (htok : truthyOpt s1.accessToken = true) (hout : env.outcome = .response r)
    (hsig : isAuthSignal r = true) :
    fetchFromEndpoint (env :: rest) s true =
      fetchFromEndpoint rest { s1 with accessToken := none } false := by
  rw [fetchFromEndpoint, hens]
  dsimp only
  rw [if_neg (fun h => h htok), hout]
  dsimp only
  unfold isAuthSignal at hsig
  cases hab : (r.status == 401 || r.status == 403) with
  | true => rw [if_pos rfl, if_pos rfl]
  | false =>
    rw [hab, Bool.false_or] at hsig
    rw [if_neg (fun h => Bool.false_ne_true h), if_pos hsig, if_pos rfl]

theorem fetchFromEndpoint_auth_signal_terminal (env : AttemptEnv) (rest : List AttemptEnv)
    (s s1 : SessionState) (r : FetchResponse) (hens : env.ensure s = .ok s1)
    (htok : truthyOpt s1.accessToken = true) (hout : env.outcome = .response r)
    (hsig : isAuthSignal r = true) :
    ∃ msg code, fetchFromEndpoint (env :: rest) s false = .error ⟨msg, code, true⟩ := by
  rw [fetchFromEndpoint, hens]
  dsimp only
  rw [if_neg (fun h => h htok), hout]
  dsimp only
  unfold isAuthSignal at hsig
  cases hab : (r.status == 401 || r.status == 403) with
  | true =>
    rw [if_pos rfl, if_neg (fun h => Bool.false_ne_true h)]
    exact ⟨_, _, rfl⟩
  | false =>
    rw [hab, Bool.false_or] at hsig
    rw [if_neg (fun h => Bool.false_ne_true h), if_pos hsig,
      if_neg (fun h => Bool.false_ne_true h)]
    exact ⟨_, _, rfl⟩

theorem fetchFromEndpoint_true_ignores_deep (e1 e2 : AttemptEnv) (rest : List AttemptEnv)
    (s : SessionState) :
    fetchFromEndpoint (e1 :: e2 :: rest) s true = fetchFromEndpoint [e1, e2] s true := by
  rw [fetchFromEndpoint]
  conv_rhs => rw [fetchFromEndpoint]
  cases hens : e1.ensure s with
  | error e => rfl
  | ok s1 =>
    dsimp only
    by_cases htok : truthyOpt s1.accessToken = true
    · rw [if_neg (fun h => h htok)]
      conv_rhs => rw [if_neg (fun h => h htok)]
      cases hout : e1.outcome with
      | abortError => rfl
      | networkError msg => rfl
      | response r =>
        dsimp only
        by_cases h401 : (r.status == 401 || r.status == 403) = true
        · rw [if_pos h401, if_pos rfl]
          conv_rhs => rw [if_pos h401, if_pos rfl]
          exact fetchFromEndpoint_false_ignores_rest e2 rest _
        · rw [if_neg h401]
          conv_rhs => rw [if_neg h401]
          by_cases hred : (r.redirected && jsIncludes r.url "login") = true
          · rw [if_pos hred, if_pos rfl]
            conv_rhs => rw [if_pos hred, if_pos rfl]
            exact fetchFromEndpoint_false_ignores_rest e2 rest _
          · rw [if_neg hred]
            conv_rhs => rw [if_neg hred]
    · rw [if_pos htok]
      conv_rhs => rw [if_pos htok]

/-- C1: when a read attempt sees an auth-failure signal (status 401/403,
or a followed redirect whose final URL contains `login`) with the retry
flag true, `fetchFromEndpoint` clears the stored bearer token and
re-invokes itself exactly once with the flag false; a second
auth-failure signal on the retry terminates with an error carrying
`authFailure = true`; and the result never depends on any response
beyond the second, so no third attempt is made. -/
theorem fetchFromEndpoint_retry_once (e1 e2 : AttemptEnv) (rest : List AttemptEnv)
    (s s1 s2 : SessionState) (r1 r2 : FetchResponse) :
    ((e1.ensure s = .ok s1 → truthyOpt s1.accessToken = true →
      e1.outcome = .response r1 → isAuthSignal r1 = true →
      fetchFromEndpoint (e1 :: e2 :: rest) s true =
        fetchFromEndpoint (e2 :: rest) { s1 with accessToken := none } false)) ∧
    ((e1.ensure s = .ok s1 → truthyOpt s1.accessToken = true →
      e1.outcome = .response r1 → isAuthSignal r1 = true →
      e2.ensure { s1 with accessToken := none } = .ok s2 →
      truthyOpt s2.accessToken = true → e2.outcome = .response r2 →
      isAuthSignal r2 = true →
      ∃ msg code, fetchFromEndpoint (e1 :: e2 :: rest) s true = .error ⟨msg, code, true⟩)) ∧
    (fetchFromEndpoint (e1 :: e2 :: rest) s true = fetchFromEndpoint [e1, e2] s true) := by
  refine ⟨?_, ?_, fetchFromEndpoint_true_ignores_deep e1 e2 rest s⟩
  · intro hens htok hout hsig
    exact fetchFromEndpoint_auth_signal_step e1 (e2 :: rest) s s1 r1 hens htok hout hsig
  · intro hens htok hout hsig hens2 htok2 hout2 hsig2
    rw [fetchFromEndpoint_auth_signal_step e1 (e2 :: rest) s s1 r1 hens htok hout hsig]
    exact fetchFromEndpoint_auth_signal_terminal e2 rest _ s2 r2 hens2 htok2 hout2 hsig2

/-- Witness for C1: two consecutive 401 responses terminate with an error
whose `authFailure` flag is set, after exactly one retry. -/
theorem fetchFromEndpoint_retry_once_witness :
    ∃ msg code,
      fetchFromEndpoint
        [⟨fun _ => .ok ⟨some "tok", none, none, none⟩, .response ⟨401, false, "u", .error "nb"⟩⟩,
         ⟨fun _ => .ok ⟨some "tok", none, none, none⟩, .response ⟨401, false, "u", .error "nb"⟩⟩]
        initialState true = .error ⟨msg, code, true⟩ :=
  (fetchFromEndpoint_retry_once
    ⟨fun _ => .ok ⟨some "tok", none, none, none⟩, .response ⟨401, false, "u", .error "nb"⟩⟩
    ⟨fun _ => .ok ⟨some "tok", none, none, none⟩, .response ⟨401, false, "u", .error "nb"⟩⟩
    [] initialState ⟨some "tok", none, none, none⟩ ⟨some "tok", none, none, none⟩
    ⟨401, false, "u", .error "nb"⟩ ⟨401, false, "u", .error "nb"⟩).2.1
    rfl (by decide) rfl (by decide) rfl (by decide) rfl (by decide)

/-- C2 counterexample: `_USER_Time_Year_T` is a known form field, yet a
call naming it sends `""` for it — no field of the submitted form carries
the caller's value, because the five time fields are hard-coded to the
empty string. -/
theorem buildSettingsForm_time_field_ignored :
    "_USER_Time_Year_T" ∈ formFieldNames ∧
    List.lookup "_USER_Time_Year_T"
      (buildSettingsForm "dev" "_USER_Time_Year_T" "5.0" "tok") = some "" ∧
    (buildSettingsForm "dev" "_USER_Time_Year_T" "5.0" "tok").all
      (fun p => p.2 ≠ "5.0") = true := by
  refine ⟨by decide, by decide, by decide⟩

/-- C2 amended: for every call whose `fieldName` is one of the eleven
settable fields (the seven selects and the four writable text fields),
the submitted form contains exactly the known fields, the field named
`fieldName` carries the caller's value, every other select field carries
`"-1"`, every other text field — always including the five time fields —
carries `""`, and the button, device-id and CSRF fields carry their fixed
values. -/
theorem buildSettingsForm_one_field (d f v t : String)
    (hf : f ∈ selectFields ++ textFields) :
    ((buildSettingsForm d f v t).map Prod.fst = formFieldNames) ∧
    (List.lookup f (buildSettingsForm d f v t) = some v) ∧
    (∀ g ∈ selectFields, g ≠ f → List.lookup g (buildSettingsForm d f v t) = some "-1") ∧
    (∀ g, (g ∈ textFields ∨ g ∈ timeFields) → g ≠ f →
      List.lookup g (buildSettingsForm d f v t) = some "") ∧
    (List.lookup "__RequestVerificationToken" (buildSettingsForm d f v t) = some t) ∧
    (List.lookup "hdnDeviceId" (buildSettingsForm d f v t) = some d) ∧
    (List.lookup "btnSubmit" (buildSettingsForm d f v t) = some "") := by
  simp only [selectFields, textFields, List.mem_append, List.mem_cons,
    List.not_mem_nil, or_false] at hf
  rcases hf with (rfl | rfl | rfl | rfl | rfl | rfl | rfl) | (rfl | rfl | rfl | rfl) <;>
    refine ⟨rfl, by simp [buildSettingsForm, List.lookup], ?_, ?_,
      by simp [buildSettingsForm, List.lookup], by simp [buildSettingsForm, List.lookup],
      by simp [buildSettingsForm, List.lookup]⟩
  all_goals
    first
      | (intro g hg hne
         simp only [selectFields, List.mem_cons, List.not_mem_nil, or_false] at hg
         rcases hg with rfl | rfl | rfl | rfl | rfl | rfl | rfl <;>
           first
             | exact absurd rfl hne
             | simp [buildSettingsForm, List.lookup])
      | (intro g hg hne
         rcases hg with hg2 | hg2
         · simp only [textFields, List.mem_cons, List.not_mem_nil, or_false] at hg2
           rcases hg2 with rfl | rfl | rfl | rfl <;>
             first
               | exact absurd rfl hne
               | simp [buildSettingsForm, List.lookup]
         · simp only [timeFields, List.mem_cons, List.not_mem_nil, or_false] at hg2
           rcases hg2 with rfl | rfl | rfl | rfl | rfl <;>
             simp [buildSettingsForm, List.lookup])

/-- Witness for C2: writing `_USER_HotWater_SetPoint_T` with `"5.0"`
sends `5.0` for it, `-1` for an untouched select and `""` for an
untouched text field. -/
theorem buildSettingsForm_one_field_witness :
    List.lookup "_USER_HotWater_SetPoint_T"
        (buildSettingsForm "dev" "_USER_HotWater_SetPoint_T" "5.0" "tok") = some "5.0" ∧
    List.lookup "_USER_Parameters_SeasonMode_C"
        (buildSettingsForm "dev" "_USER_HotWater_SetPoint_T" "5.0" "tok") = some "-1" ∧
    List.lookup "_USER_HeatSPCtrl_ToffSet_T"
        (buildSettingsForm "dev" "_USER_HotWater_SetPoint_T" "5.0" "tok") = some "" := by
  have h := buildSettingsForm_one_field "dev" "_USER_HotWater_SetPoint_T" "5.0" "tok"
    (by decide)
  exact ⟨h.2.1, h.2.2.1 "_USER_Parameters_SeasonMode_C" (by decide) (by decide),
    h.2.2.2.1 "_USER_HeatSPCtrl_ToffSet_T" (Or.inl (by decide)) (by decide)⟩
